import Mathlib

/-
Verification of the C++ structural parser in src/emerge/languages/cppparser.py.

The embedding works at the level of the token stream.  The parser builds a
read-ahead string by joining the current token and all following tokens with
single spaces and runs pyparsing grammars over it; since the tokenizer pads all
grammar punctuation (`< > , : ; ( ) \x7b \x7d "` etc.) with spaces, those
grammars are faithfully represented here as matchers over the token list, with
the two places where pyparsing's `Word` element can match a strict prefix of a
token (the class/struct name and the namespace name, whose residues cannot be
followed by any further required literal) modelled by a maximal-prefix scan.
-/

set_option maxRecDepth 8192

namespace CppParser

/-- Character class of `pp.alphas + '_'`, the initial-character set of the
identifier `Word` elements in cppparser.py (`pp.Word(pp.alphas + '_', ...)`). -/
def is_ident_start (c : Char) : Bool := c.isAlpha || c = '_'

/-- Character class of `pp.alphanums + '_'`, the body-character set of the
identifier `Word` elements in cppparser.py. -/
def is_ident_char (c : Char) : Bool := c.isAlphanum || c = '_'

/-- A whole token matches `pp.Word(pp.alphas + '_', pp.alphanums + '_')`
exactly (nonempty, identifier start, identifier body). -/
def is_identifier (t : String) : Bool :=
  match t.toList with
  | [] => false
  | c :: cs => is_ident_start c && cs.all is_ident_char

/-- The maximal prefix of a token matched by
`pp.Word(pp.alphas + '_', pp.alphanums + '_')`, or `none` when the `Word`
element fails at this token (pyparsing `Word` consumes the longest run of
allowed characters and leaves the residue in place). -/
def ident_head (t : String) : Option String :=
  match t.toList with
  | [] => none
  | c :: cs =>
    if is_ident_start c then some (String.mk (c :: cs.takeWhile is_ident_char)) else none

/-- The punctuation characters of `CPPParser._token_mappings`
(cppparser.py lines 54-69): each is replaced by itself surrounded by spaces
before the source is split into tokens. -/
def is_mapped_punct (c : Char) : Bool :=
  c = ':' || c = ';' || c = '\x7b' || c = '\x7d' || c = '(' || c = ')' ||
  c = '[' || c = ']' || c = '?' || c = '!' || c = ',' || c = '<' || c = '>' || c = '\"'

/-- Modelled from the spec: the tokenizer
(`preprocess_file_content_and_generate_token_list_by_mapping` of
emerge/languages/abstractparser.py, which is not under src/).  Per spec 4.1,
every occurrence of a mapped punctuation character is surrounded by separators
and the whole text is then split on whitespace, producing only nonempty
tokens.  `acc` holds the characters of the word currently being read, in
reverse. -/
def tokenize_aux : List Char → List Char → List String
  | [], acc => if acc.isEmpty then [] else [String.mk acc.reverse]
  | c :: cs, acc =>
    if c.isWhitespace then
      if acc.isEmpty then tokenize_aux cs [] else String.mk acc.reverse :: tokenize_aux cs []
    else if is_mapped_punct c then
      (if acc.isEmpty then [] else [String.mk acc.reverse]) ++
        String.mk [c] :: tokenize_aux cs []
    else tokenize_aux cs (c :: acc)

/-- Modelled from the spec: tokenizing a raw source string with the C++
token mappings (spec 4.1, "Tokenizer"). -/
def tokenize (s : String) : List String := tokenize_aux s.toList []

/-- One group of the template-header `delimitedList`
(cppparser.py lines 151-156): `pp.Group(pp.Optional(pp.Keyword('typename') |
pp.Keyword('class')) + pp.Word(...))`.  The captured parameter is
`param[-1]`, i.e. the identifier component.  When the optional keyword
matches, the following identifier is mandatory (pyparsing `And` does not
backtrack out of a matched `Optional`). -/
def parse_template_group : List String → Option (String × List String)
  | t :: rest =>
    if t = "typename" || t = "class" then
      match rest with
      | u :: rest2 => if is_identifier u then some (u, rest2) else none
      | [] => none
    else if is_identifier t then some (t, rest)
    else none
  | [] => none

/-- The `ZeroOrMore(Suppress(',') + group)` continuation of the
template-header `delimitedList`: on a failure after a comma the repetition
rolls back and stops before that comma. -/
def parse_group_tail : List String → List String × List String
  | "," :: t :: rest =>
    if t = "typename" || t = "class" then
      match rest with
      | u :: rest2 =>
        if is_identifier u then
          let (ps, r) := parse_group_tail rest2
          (u :: ps, r)
        else ([], "," :: t :: rest)
      | [] => ([], ["," , t])
    else if is_identifier t then
      let (ps, r) := parse_group_tail rest
      (t :: ps, r)
    else ([], "," :: t :: rest)
  | ts => ([], ts)

/-- The template-header pattern of cppparser.py lines 148-158, applied to the
tokens following the `template` keyword (the leading
`pp.Keyword('template')` always matches the loop token itself):
`Literal('<') + delimitedList(group).setResultsName('params') + Literal('>')`.
Returns the captured parameter names, or `none` on a `ParseException`. -/
def template_decl_match : List String → Option (List String)
  | "<" :: rest =>
    match parse_template_group rest with
    | some (p, r1) =>
      let (ps, r2) := parse_group_tail r1
      match r2 with
      | ">" :: _ => some (p :: ps)
      | _ => none
    | none => none
  | _ => none

/-- The `ZeroOrMore(Suppress(',') + item)` continuation of the inline
template-argument list of the class pattern (cppparser.py lines 175-182).
The `pp.Word(...) | pp.Literal('typename') + identifier` alternative always
takes the `Word` branch for tokenizer output, since `typename` itself is an
alphabetic word. -/
def parse_args_tail : List String → List String × List String
  | "," :: t :: rest =>
    if is_identifier t then
      let (ps, r) := parse_args_tail rest
      (t :: ps, r)
    else ([], "," :: t :: rest)
  | ts => ([], ts)

/-- The optional inline template-argument list of the class pattern
(cppparser.py lines 175-182): `pp.Optional(Literal('<') + delimitedList(...) +
Literal('>'))`.  On inner failure the `Optional` restores the position to
before the `<`. -/
def parse_class_template_args : List String → List String × List String
  | "<" :: rest =>
    (match rest with
     | t :: rest2 =>
       if is_identifier t then
         let (ps, r) := parse_args_tail rest2
         match r with
         | ">" :: r2 => (t :: ps, r2)
         | _ => ([], "<" :: rest)
       else ([], "<" :: rest)
     | [] => ([], ["<"]))
  | ts => ([], ts)

/-- One item of the base-class `delimitedList` (cppparser.py lines 190-193):
`pp.Optional(pp.oneOf('public private protected')) + pp.Word(...)`.  The
access specifier, when present, is captured together with the base name
(only the `:` and the commas are suppressed in the source pattern). -/
def parse_base_item : List String → Option (List String × List String)
  | t :: rest =>
    if t = "public" || t = "private" || t = "protected" then
      match rest with
      | u :: rest2 => if is_identifier u then some ([t, u], rest2) else none
      | [] => none
    else if is_identifier t then some ([t], rest)
    else none
  | [] => none

/-- The `ZeroOrMore(Suppress(',') + item)` continuation of the base-class
list; rolls back and stops before a comma whose item fails. -/
def parse_base_tail : List String → List String × List String
  | "," :: t :: rest =>
    if t = "public" || t = "private" || t = "protected" then
      match rest with
      | u :: rest2 =>
        if is_identifier u then
          let (items, r) := parse_base_tail rest2
          (t :: u :: items, r)
        else ([], "," :: t :: rest)
      | [] => ([], ["," , t])
    else if is_identifier t then
      let (items, r) := parse_base_tail rest
      (t :: items, r)
    else ([], "," :: t :: rest)
  | ts => ([], ts)

/-- The optional base-class list of the class pattern (cppparser.py lines
188-194): `pp.Optional(Literal(':') + delimitedList(item).setResultsName('bases'))`,
restoring the position on inner failure. -/
def parse_class_bases : List String → List String × List String
  | ":" :: rest =>
    (match parse_base_item rest with
     | some (item, r) =>
       let (items, r2) := parse_base_tail r
       (item ++ items, r2)
     | none => ([], ":" :: rest))
  | ts => ([], ts)

/-- The captured fields of a successful class/struct match
(cppparser.py lines 184-195): the name, the inline template-argument list
(`parsed.template_params`, empty when absent) and the base list
(`parsed.bases`, empty when absent). -/
structure ClassMatch where
  name : String
  template_params : List String
  bases : List String
deriving Repr, DecidableEq

/-- The class/struct pattern of cppparser.py lines 184-195, applied to the
tokens following the `class`/`struct` keyword: `identifier.setResultsName('name')
+ Optional(template args) + Optional(':' + bases)`.  When `Word` matches only
a strict prefix of the name token, the residue (which for tokenizer output
can never begin with `<` or `:`, both being padded punctuation) makes both
`Optional` elements match empty, so the pattern still succeeds with only the
name captured. -/
def class_decl_match : List String → Option ClassMatch
  | nameTok :: rest =>
    (match ident_head nameTok with
     | none => none
     | some nm =>
       if nm = nameTok then
         let (targs, r1) := parse_class_template_args rest
         let (bs, _r2) := parse_class_bases r1
         some { name := nm, template_params := targs, bases := bs }
       else
         some { name := nm, template_params := [], bases := [] })
  | [] => none

/-- The namespace pattern of cppparser.py lines 270-273, applied to the
tokens following the `namespace` keyword: `pp.Word(...).setResultsName('name')`. -/
def namespace_decl_match : List String → Option String
  | t :: _ => ident_head t
  | [] => none

/-- Whether a token ends with `=`.  In the space-joined read-ahead string the
literal `= 0` (`CPPParsingKeyword.PURE_VIRTUAL`) matches exactly at a boundary
where one token ends with `=` and the next token starts with `0`; `=` is not
a padded punctuation character, while `;` is, so `;` only ever occurs as a
whole token. -/
def token_ends_with_eq (t : String) : Bool := t.toList.getLast? == some '='

/-- Whether the next token starts with `0` (second half of a `= 0` literal
match across a token boundary). -/
def next_token_starts_with_zero : List String → Bool
  | u :: _ => u.toList.head? == some '0'
  | [] => false

/-- The scan of `pp.SkipTo(pp.oneOf([';', '= 0']))` in the virtual-method
pattern (cppparser.py lines 240-244): the index of the first token at which
the skip target matches (a `;` token, or the start of a cross-boundary `= 0`
literal), or `none` when the `SkipTo` fails. -/
def find_marker_idx : List String → Option Nat
  | [] => none
  | t :: rest =>
    if t = ";" then some 0
    else if token_ends_with_eq t ∧ next_token_starts_with_zero rest then some 0
    else (find_marker_idx rest).map (fun k => k + 1)

/-- The scan of `virtual_method_pattern.searchString(read_ahead_class_body)`
(cppparser.py lines 240-247) over a token list: each match needs a `virtual`
token (`pp.Keyword`), not immediately followed by `override`
(`~pp.Keyword(OVERRIDE)`), and a successful `SkipTo`; the match result is the
skipped text, which stops just BEFORE the first `;` or `= 0` marker
(`SkipTo` with the default `include=False` does not add the target to the
match), and the search resumes at the marker.  The fuel argument (one unit
per token advanced) only makes the recursion structural; it is initialised
with the list length and cannot run out. -/
def search_virtual_aux : Nat → List String → List (List String)
  | 0, _ => []
  | _, [] => []
  | fuel + 1, t :: rest =>
    if t = "virtual" ∧ rest.head? ≠ some "override" then
      match find_marker_idx rest with
      | some k => rest.take k :: search_virtual_aux fuel (rest.drop k)
      | none => search_virtual_aux fuel rest
    else search_virtual_aux fuel rest

/-- All matches of the virtual-method pattern in a token list (the
`virtual_methods` list of cppparser.py line 247). -/
def search_virtual (ts : List String) : List (List String) :=
  search_virtual_aux ts.length ts

/-- Whether the text of a match contains the literal `= 0`
(the `CPPParsingKeyword.PURE_VIRTUAL.value in str(method)` test of
cppparser.py line 250): in the space-joined text of the skipped tokens this
requires a token ending with `=` immediately followed by a token starting
with `0`. -/
def has_pure_marker : List String → Bool
  | a :: b :: rest =>
    (token_ends_with_eq a && next_token_starts_with_zero (b :: rest)) ||
      has_pure_marker (b :: rest)
  | _ => false

/-- The abstractness / virtual-method heuristic of cppparser.py lines
236-257, run over `read_ahead_class_body` (all tokens following the
class/struct keyword).  Returns `(is_abstract, has_virtual_methods)`:
`(true, true)` when some match text contains `= 0`, `(false, true)` when
there is a match but none contains `= 0`, and `(false, false)` otherwise. -/
def virtual_scan (read_ahead_class_body : List String) : Bool × Bool :=
  let virtual_methods := search_virtual read_ahead_class_body
  if virtual_methods.any has_pure_marker then (true, true)
  else if virtual_methods.isEmpty = false then (false, true)
  else (false, false)

/-- The forward scan of cppparser.py lines 217-223
(`for next_token in following: ...`): the first token that is an open-scope
or a semicolon token, if any.  The class name is pushed exactly when this
is `\x7b`. -/
def first_open_or_semi : List String → Option String
  | [] => none
  | t :: rest => if t = "\x7b" ∨ t = ";" then some t else first_open_or_semi rest

/-- Python's `'::' in param` (cppparser.py line 310) on the character list
of a parameter name: a `:` immediately followed by another `:` occurs
somewhere in it. -/
def has_scope_sep : List Char → Bool
  | [] => false
  | [_] => false
  | c :: d :: rest => (c = ':' && d = ':') || has_scope_sep (d :: rest)

/-- Python's `param.split('::')` (cppparser.py lines 315 and 330) on a
character list: split on non-overlapping occurrences of `::`, scanning left
to right. -/
def split_on_scope_sep : List Char → List (List Char)
  | [] => [[]]
  | [c] => [[c]]
  | c :: d :: rest =>
    if c = ':' && d = ':' then [] :: split_on_scope_sep rest
    else
      match split_on_scope_sep (d :: rest) with
      | s :: ss => (c :: s) :: ss
      | [] => [[c]]

/-- `'::' in param` lifted to strings. -/
def contains_scope_sep (p : String) : Bool := has_scope_sep p.toList

/-- `param.split('::')[-1]` lifted to strings (the split of a string is
never empty, so the default is never used). -/
def last_scope_segment (p : String) : String :=
  String.mk ((split_on_scope_sep p.toList).getLastD [])

/-- Modelled from the spec: the entity record (`EntityResult` of
emerge/results.py, which is not under src/), restricted to the attributes
cppparser.py reads or writes; per spec section 3 an entity carries name,
kind, namespace path, template parameters, base types, the abstractness and
has-virtual-methods flags and the composed names.  The flags default to
false and the optional lists to empty until the parser sets them
(cppparser.py lines 206-257). -/
structure EntityResult where
  entity_name : String
  entity_type : String
  entity_namespace : String
  template_parameters : List String
  base_types : List String
  is_abstract : Bool
  has_virtual_methods : Bool
  unique_name : String
  display_name : String
  template_signature : String
deriving Repr, DecidableEq

/-- `CPPParser.create_unique_entity_name` (cppparser.py lines 291-331):
compose the unique name from the namespace (omitted when empty), the entity
name, and the template parameters (a parameter containing `::` is kept
whole, otherwise `param.split('::')[-1]` is used, which is the parameter
itself); the display name is the entity name plus the last `::`-segment of
each template parameter in angle brackets.  The `template_str` is only
attached (and the signature only stored) when template parameters are
present. -/
def create_unique_entity_name (e : EntityResult) : EntityResult :=
  let name_parts : List String :=
    (if e.entity_namespace ≠ "" then [e.entity_namespace] else []) ++ [e.entity_name]
  let template_params : List String :=
    e.template_parameters.map (fun p => if contains_scope_sep p then p else last_scope_segment p)
  let template_str : String := "<" ++ String.intercalate "," template_params ++ ">"
  let name_parts2 : List String :=
    if e.template_parameters ≠ [] then
      name_parts.dropLast ++ [name_parts.getLastD "" ++ template_str]
    else name_parts
  let display : String :=
    if e.template_parameters ≠ [] then
      e.entity_name ++ "<" ++
        String.intercalate "," (e.template_parameters.map last_scope_segment) ++ ">"
    else e.entity_name
  { e with
    unique_name := String.intercalate "::" name_parts2,
    display_name := display,
    template_signature :=
      if e.template_parameters ≠ [] then template_str else e.template_signature }

/-- The per-file scope state of `generate_entity_results_from_analysis`
(cppparser.py lines 139-141): `current_namespace`, `current_template_params`
(`None` or the nonempty list captured by the last template header) and
`class_scope_stack`.  Stack tops are at the end of the lists (Python
`append`/`pop`). -/
structure ScopeState where
  current_namespace : List String
  current_template_params : Option (List String)
  class_scope_stack : List String
deriving Repr, DecidableEq

/-- The effect of processing one token of the read-ahead loop: the new scope
state, the entity appended to the file result (if any), and the increments
to the statistics hit/miss counters and to the number of warning log
entries. -/
structure StepResult where
  state : ScopeState
  emitted : Option EntityResult
  hits : Nat
  misses : Nat
  warnings : Nat
deriving Repr, DecidableEq

/-- One iteration of the token loop of
`generate_entity_results_from_analysis` (cppparser.py lines 143-289),
processing `token` with the remaining tokens `following`:
`template` runs the template pattern (success sets the pending parameters,
failure counts a miss, warns and clears them); `class`/`struct` runs the
class pattern (success builds an entity from the current namespace plus the
class stack, pushes the name when a `\x7b` is seen before a `;` in the
following tokens, attaches the pending template parameters if truthy —
clearing them — else the inline argument list, attaches bases, runs the
virtual scan over all following tokens, composes the unique name and emits
the entity; failure counts a miss and warns); `namespace` pushes the matched
name (failure counts a miss and warns); `\x7d` pops the class stack if
nonempty, else the namespace stack if nonempty, else does nothing.  All
other tokens leave everything unchanged. -/
def cpp_step (s : ScopeState) (token : String) (following : List String) : StepResult :=
  if token = "template" then
    match template_decl_match following with
    | some ps =>
      { state := { s with current_template_params := some ps },
        emitted := none, hits := 1, misses := 0, warnings := 0 }
    | none =>
      { state := { s with current_template_params := none },
        emitted := none, hits := 0, misses := 1, warnings := 1 }
  else if token = "class" ∨ token = "struct" then
    match class_decl_match following with
    | some m =>
      let full_namespace := s.current_namespace ++ s.class_scope_stack
      let entity_tps : List String :=
        match s.current_template_params with
        | some (p :: ps) => p :: ps
        | _ => m.template_params
      let pending' : Option (List String) :=
        match s.current_template_params with
        | some (_ :: _) => none
        | other => other
      let flags := virtual_scan following
      let ent := create_unique_entity_name
        { entity_name := m.name, entity_type := token,
          entity_namespace :=
            if full_namespace = [] then "" else String.intercalate "::" full_namespace,
          template_parameters := entity_tps,
          base_types := m.bases,
          is_abstract := flags.1, has_virtual_methods := flags.2,
          unique_name := "", display_name := "", template_signature := "" }
      { state :=
          { s with
            class_scope_stack :=
              if first_open_or_semi following = some "\x7b" then
                s.class_scope_stack ++ [m.name]
              else s.class_scope_stack,
            current_template_params := pending' },
        emitted := some ent, hits := 1, misses := 0, warnings := 0 }
    | none => { state := s, emitted := none, hits := 0, misses := 1, warnings := 1 }
  else if token = "namespace" then
    match namespace_decl_match following with
    | some n =>
      { state := { s with current_namespace := s.current_namespace ++ [n] },
        emitted := none, hits := 1, misses := 0, warnings := 0 }
    | none => { state := s, emitted := none, hits := 0, misses := 1, warnings := 1 }
  else if token = "\x7d" then
    { state :=
        if s.class_scope_stack ≠ [] then
          { s with class_scope_stack := s.class_scope_stack.dropLast }
        else if s.current_namespace ≠ [] then
          { s with current_namespace := s.current_namespace.dropLast }
        else s,
      emitted := none, hits := 0, misses := 0, warnings := 0 }
  else { state := s, emitted := none, hits := 0, misses := 0, warnings := 0 }

/-- The outcome of the whole entity pass over one file: final scope state,
the entity list in append order, and the statistics totals. -/
structure PassResult where
  state : ScopeState
  entities : List EntityResult
  hits : Nat
  misses : Nat
  warnings : Nat
deriving Repr, DecidableEq

/-- The token loop of `generate_entity_results_from_analysis`: the
read-ahead generator yields each position with all following tokens
(modelled from the spec 3.3, `_gen_word_read_ahead` of abstractparser.py is
not under src/), and the loop folds `cpp_step` over the positions in order,
appending each emitted entity. -/
def run_entity_pass : ScopeState → List String → PassResult
  | s, [] => { state := s, entities := [], hits := 0, misses := 0, warnings := 0 }
  | s, t :: rest =>
    let st := cpp_step s t rest
    let tail := run_entity_pass st.state rest
    { state := tail.state,
      entities := st.emitted.toList ++ tail.entities,
      hits := st.hits + tail.hits,
      misses := st.misses + tail.misses,
      warnings := st.warnings + tail.warnings }

/-- Running the entity pass on a file's (comment-free) token list from the
empty scope state, as `generate_entity_results_from_analysis` does per file
(cppparser.py lines 139-143).  The comment filter of spec 4.2 is the
identity on comment-free sources and is not modelled separately. -/
def generate_entity_results (tokens : List String) : PassResult :=
  run_entity_pass
    { current_namespace := [], current_template_params := none, class_scope_stack := [] }
    tokens

/-- `CPPParser.try_resolve_dependency` (cppparser.py lines 381-386):
resolve the raw include path (the resolution itself,
`resolve_relative_dependency_path` of abstractparser.py, is not under src/
and is abstracted as the `resolve` argument; per spec 4.8 it computes a
source-root-relative path using the owning file's directory as base); adopt
the resolved path when it exists under the parent of the source root,
otherwise keep the raw dependency string. -/
def try_resolve_dependency (resolve : String → String) (path_exists : String → Bool)
    (parent_dir : String) (dependency : String) : String :=
  let resolved_dependency := resolve dependency
  if path_exists (parent_dir ++ "/" ++ resolved_dependency) then resolved_dependency
  else dependency

/-- The dependency-recording loop of `CPPParser._add_imports_to_result`
(cppparser.py lines 370-379), over the list of successfully matched include
path strings in encounter order: each is resolved with
`try_resolve_dependency`, dropped when the ignore-list predicate
(`_is_dependency_in_ignore_list`, not under src/, abstracted as
`in_ignore_list`) matches, and appended to the file record's dependency
list otherwise. -/
def add_import_dependencies (resolve : String → String) (path_exists : String → Bool)
    (parent_dir : String) (in_ignore_list : String → Bool) : List String → List String
  | [] => []
  | dependency :: rest =>
    let resolved_dependency := try_resolve_dependency resolve path_exists parent_dir dependency
    if in_ignore_list resolved_dependency then
      add_import_dependencies resolve path_exists parent_dir in_ignore_list rest
    else
      resolved_dependency ::
        add_import_dependencies resolve path_exists parent_dir in_ignore_list rest

/-- The unique-name formula as the spec states it (spec section 3,
invariants): namespace path segments joined with `::`, then `::` and the
entity name, then the joined template parameter names in angle brackets when
present, with the namespace prefix omitted when the path is empty; template
parameter names are kept whole in the unique name. -/
def spec_unique_name (path : List String) (name : String) (tps : List String) : String :=
  (if path = [] then "" else String.intercalate "::" path ++ "::") ++ name ++
    (if tps = [] then "" else "<" ++ String.intercalate "," tps ++ ">")

/-- The display-name formula as the spec states it: the entity name plus the
last `::`-segment of each template parameter in angle brackets when
present. -/
def spec_display_name (name : String) (tps : List String) : String :=
  name ++
    (if tps = [] then ""
     else "<" ++ String.intercalate "," (tps.map last_scope_segment) ++ ">")

theorem intercalate_single (s a : String) : String.intercalate s [a] = a := rfl

theorem intercalate_pair (s a b : String) : String.intercalate s [a, b] = a ++ s ++ b := rfl

theorem split_on_scope_sep_no_sep :
    ∀ cs : List Char, has_scope_sep cs = false → split_on_scope_sep cs = [cs]
  | [] => fun _ => rfl
  | [_] => fun _ => rfl
  | c :: d :: rest => fun h => by
    simp only [has_scope_sep, Bool.or_eq_false_iff] at h
    have ih := split_on_scope_sep_no_sep (d :: rest) h.2
    simp only [split_on_scope_sep, h.1, ih]
    simp

theorem last_scope_segment_of_no_sep (p : String) (h : contains_scope_sep p = false) :
    last_scope_segment p = p := by
  have hsplit := split_on_scope_sep_no_sep p.toList h
  simp only [last_scope_segment, hsplit]
  rfl

theorem map_template_params_id (tps : List String) :
    tps.map (fun p => if contains_scope_sep p then p else last_scope_segment p) = tps := by
  induction tps with
  | nil => rfl
  | cons p rest ih =>
    have hp : (if contains_scope_sep p then p else last_scope_segment p) = p := by
      by_cases h : contains_scope_sep p = true
      · simp [h]
      · have hfalse : contains_scope_sep p = false := by simpa using h
        simp [hfalse, last_scope_segment_of_no_sep p hfalse]
    simp [hp, ih]

/-- C1: evaluating the entity pass on
`class Shape \x7b virtual void area() = 0; \x7d;` and on
`class Shape \x7b virtual void area() override; \x7d;`.  Both inputs yield
`has_virtual_methods = true` and `is_abstract = false`: the `SkipTo` of the
virtual-method pattern stops just before the first `;` or `= 0` marker and
does not include it in the match text, so the `'= 0' in str(method)` test of
line 250 never succeeds and the `is_abstract = True` branch is dead — the
code never marks the pure-virtual class abstract, contradicting the claim's
first example (and the code's own stated intent). -/
theorem c1_pure_virtual_scan_eval :
    ((generate_entity_results (tokenize "class Shape \x7b virtual void area() = 0; \x7d;")).entities.map
        (fun e => (e.entity_name, e.has_virtual_methods, e.is_abstract)) =
      [("Shape", true, false)]) ∧
    ((generate_entity_results (tokenize "class Shape \x7b virtual void area() override; \x7d;")).entities.map
        (fun e => (e.entity_name, e.has_virtual_methods, e.is_abstract)) =
      [("Shape", true, false)]) := by
  decide

/-- C2: the composed unique name is the namespace path joined with `::`,
then `::` and the entity name, then the joined (kept-whole) template
parameter names in angle brackets when present, with the namespace prefix
omitted when the path is empty; the display name is the entity name plus
the last `::`-segment of each template parameter.  In particular
`template<typename T> class Box \x7b \x7d;` yields unique name `Box<T>` and
display name `Box<T>`. -/
theorem c2_unique_name_composition (path : List String) (name : String) (tps : List String)
    (hpath : path ≠ [] → String.intercalate "::" path ≠ "") :
    (let e := create_unique_entity_name
      { entity_name := name, entity_type := "class",
        entity_namespace := if path = [] then "" else String.intercalate "::" path,
        template_parameters := tps, base_types := [], is_abstract := false,
        has_virtual_methods := false, unique_name := "", display_name := "",
        template_signature := "" }
     e.unique_name = spec_unique_name path name tps ∧
       e.display_name = spec_display_name name tps) ∧
    (generate_entity_results (tokenize "template<typename T> class Box \x7b \x7d;")).entities.map
        (fun e => (e.unique_name, e.display_name)) =
      [("Box<T>", "Box<T>")] := by
  refine ⟨?_, by decide⟩
  by_cases hp : path = []
  · subst hp
    by_cases ht : tps = []
    · subst ht
      simp [create_unique_entity_name, spec_unique_name, spec_display_name,
        intercalate_single]
    · simp [create_unique_entity_name, spec_unique_name, spec_display_name, ht,
        map_template_params_id, intercalate_single, String.append_assoc]
  · have hns := hpath hp
    by_cases ht : tps = []
    · subst ht
      simp [create_unique_entity_name, spec_unique_name, spec_display_name, hp, hns,
        intercalate_pair, String.append_assoc]
    · simp [create_unique_entity_name, spec_unique_name, spec_display_name, hp, hns, ht,
        map_template_params_id, intercalate_pair, String.append_assoc]

/-- Witness for C2 at the concrete namespace path `N`, entity name `C` and
template parameter list `T`. -/
theorem c2_unique_name_composition_witness :
    ((["N"] : List String) ≠ [] → String.intercalate "::" ["N"] ≠ "") ∧
    ((let e := create_unique_entity_name
        { entity_name := "C", entity_type := "class",
          entity_namespace :=
            if (["N"] : List String) = [] then "" else String.intercalate "::" ["N"],
          template_parameters := ["T"], base_types := [], is_abstract := false,
          has_virtual_methods := false, unique_name := "", display_name := "",
          template_signature := "" }
      e.unique_name = spec_unique_name ["N"] "C" ["T"] ∧
        e.display_name = spec_display_name "C" ["T"]) ∧
     (generate_entity_results (tokenize "template<typename T> class Box \x7b \x7d;")).entities.map
        (fun e => (e.unique_name, e.display_name)) =
      [("Box<T>", "Box<T>")]) :=
  ⟨by decide, c2_unique_name_composition ["N"] "C" ["T"] (by decide)⟩

/-- C3: for `class Outer \x7b class Inner \x7b \x7d; \x7d;` from the empty
scope state, `Inner`'s entity has unique name `Outer::Inner` (the enclosing
class name is on the class stack when `Inner`'s entity is built), and after
the final two closing braces both the namespace stack and the class-name
stack are empty. -/
theorem c3_nested_class_scopes :
    (generate_entity_results (tokenize "class Outer \x7b class Inner \x7b \x7d; \x7d;")).entities.map
        EntityResult.unique_name = ["Outer", "Outer::Inner"] ∧
    (generate_entity_results (tokenize "class Outer \x7b class Inner \x7b \x7d; \x7d;")).state.current_namespace = [] ∧
    (generate_entity_results (tokenize "class Outer \x7b class Inner \x7b \x7d; \x7d;")).state.class_scope_stack = [] := by
  decide

/-- C9: the virtual-method scan of a matched class runs over
`read_ahead_class_body`, built from all tokens following the class/struct
keyword, not only the declaration's own body.  Consequently, on
`class A \x7b \x7d; class B \x7b virtual void f(); \x7d;` — where the part
of the file up to and including `A`'s declaration contains no `virtual`
token at all — the entity for `A` also gets `has_virtual_methods = true`. -/
theorem c9_virtual_scan_reaches_later_classes :
    (generate_entity_results (tokenize "class A \x7b \x7d; class B \x7b virtual void f(); \x7d;")).entities.map
        (fun e => (e.entity_name, e.has_virtual_methods)) =
      [("A", true), ("B", true)] ∧
    (tokenize "class A \x7b \x7d;").contains "virtual" = false := by
  decide

/-- C4: for every scope state and every successful class/struct match whose
following tokens show a `;` before any `\x7b` (a forward declaration), the
class-name stack is not pushed and both stack depths are unchanged. -/
theorem c4_forward_decl_no_push (s : ScopeState) (t : String) (f : List String)
    (m : ClassMatch) (ht : t = "class" ∨ t = "struct")
    (hm : class_decl_match f = some m)
    (hsemi : first_open_or_semi f = some ";") :
    (cpp_step s t f).state.class_scope_stack = s.class_scope_stack ∧
    (cpp_step s t f).state.current_namespace = s.current_namespace := by
  rcases ht with rfl | rfl <;> simp +decide [cpp_step, hm, hsemi]

/-- Witness for C4: `class Fwd ;` from the empty scope state. -/
theorem c4_forward_decl_no_push_witness :
    (("class" : String) = "class" ∨ ("class" : String) = "struct") ∧
    class_decl_match ["Fwd", ";"] = some { name := "Fwd", template_params := [], bases := [] } ∧
    first_open_or_semi ["Fwd", ";"] = some ";" ∧
    ((cpp_step { current_namespace := [], current_template_params := none, class_scope_stack := [] }
        "class" ["Fwd", ";"]).state.class_scope_stack = [] ∧
     (cpp_step { current_namespace := [], current_template_params := none, class_scope_stack := [] }
        "class" ["Fwd", ";"]).state.current_namespace = []) :=
  ⟨Or.inl rfl, by decide, by decide,
    c4_forward_decl_no_push
      { current_namespace := [], current_template_params := none, class_scope_stack := [] }
      "class" ["Fwd", ";"] { name := "Fwd", template_params := [], bases := [] }
      (Or.inl rfl) (by decide) (by decide)⟩

/-- C5: processing a close-scope token pops the class-name stack when it is
nonempty, otherwise pops the namespace stack when it is nonempty, and
otherwise changes nothing; no stack is ever popped while empty and an
unmatched close never raises (the step is a total function). -/
theorem c5_close_scope_pops (s : ScopeState) (f : List String) :
    (s.class_scope_stack ≠ [] →
      (cpp_step s "\x7d" f).state.class_scope_stack = s.class_scope_stack.dropLast ∧
      (cpp_step s "\x7d" f).state.current_namespace = s.current_namespace) ∧
    (s.class_scope_stack = [] → s.current_namespace ≠ [] →
      (cpp_step s "\x7d" f).state.current_namespace = s.current_namespace.dropLast ∧
      (cpp_step s "\x7d" f).state.class_scope_stack = []) ∧
    (s.class_scope_stack = [] → s.current_namespace = [] →
      (cpp_step s "\x7d" f).state = s) := by
  refine ⟨fun h1 => ?_, fun h1 h2 => ?_, fun h1 h2 => ?_⟩ <;>
    simp +decide [cpp_step, h1, *]

/-- Witness for C5 at the three concrete scope states: a nonempty class
stack, an empty class stack with a nonempty namespace stack, and two empty
stacks. -/
theorem c5_close_scope_pops_witness :
    ((["C"] : List String) ≠ [] ∧
      ((cpp_step { current_namespace := ["N"], current_template_params := none, class_scope_stack := ["C"] } "\x7d" []).state.class_scope_stack = [] ∧
       (cpp_step { current_namespace := ["N"], current_template_params := none, class_scope_stack := ["C"] } "\x7d" []).state.current_namespace = ["N"])) ∧
    ((cpp_step { current_namespace := ["N"], current_template_params := none, class_scope_stack := [] } "\x7d" []).state.current_namespace = [] ∧
     (cpp_step { current_namespace := ["N"], current_template_params := none, class_scope_stack := [] } "\x7d" []).state.class_scope_stack = []) ∧
    (cpp_step { current_namespace := [], current_template_params := none, class_scope_stack := [] } "\x7d" []).state =
      { current_namespace := [], current_template_params := none, class_scope_stack := [] } :=
  ⟨⟨by decide,
     (c5_close_scope_pops
        { current_namespace := ["N"], current_template_params := none, class_scope_stack := ["C"] } []).1 (by decide)⟩,
   (c5_close_scope_pops
      { current_namespace := ["N"], current_template_params := none, class_scope_stack := [] } []).2.1 rfl (by decide),
   (c5_close_scope_pops
      { current_namespace := [], current_template_params := none, class_scope_stack := [] } []).2.2 rfl rfl⟩

/-- C6: pending template parameters set by a matched template header are
attached to the next successful class/struct match and then cleared (so
they apply to at most one declaration), taking precedence over any inline
template-argument list captured by the class/struct matcher; the inline
list is used only when no pending parameters are set. -/
theorem c6_pending_template_precedence (s : ScopeState) (t : String) (f : List String)
    (m : ClassMatch) (ht : t = "class" ∨ t = "struct")
    (hm : class_decl_match f = some m) :
    (∀ p ps, s.current_template_params = some (p :: ps) →
      (cpp_step s t f).emitted.map EntityResult.template_parameters = some (p :: ps) ∧
      (cpp_step s t f).state.current_template_params = none) ∧
    (s.current_template_params = none →
      (cpp_step s t f).emitted.map EntityResult.template_parameters = some m.template_params ∧
      (cpp_step s t f).state.current_template_params = none) := by
  rcases ht with rfl | rfl <;>
    refine ⟨fun p ps hp => ?_, fun hp => ?_⟩ <;>
      simp +decide [cpp_step, hm, hp, create_unique_entity_name]

/-- Witness for C6: the pending parameter list `T` takes precedence at
`class Box \x7b`, and without pending parameters the inline list `A` of
`class Foo<A>` is attached. -/
theorem c6_pending_template_precedence_witness :
    (("class" : String) = "class" ∨ ("class" : String) = "struct") ∧
    ((cpp_step { current_namespace := [], current_template_params := some ["T"], class_scope_stack := [] } "class" ["Box", "\x7b", "\x7d", ";"]).emitted.map
          EntityResult.template_parameters = some ["T"] ∧
     (cpp_step { current_namespace := [], current_template_params := some ["T"], class_scope_stack := [] } "class" ["Box", "\x7b", "\x7d", ";"]).state.current_template_params = none) ∧
    ((cpp_step { current_namespace := [], current_template_params := none, class_scope_stack := [] } "class" ["Foo", "<", "A", ">", ";"]).emitted.map
          EntityResult.template_parameters = some ["A"] ∧
     (cpp_step { current_namespace := [], current_template_params := none, class_scope_stack := [] } "class" ["Foo", "<", "A", ">", ";"]).state.current_template_params = none) :=
  ⟨Or.inl rfl,
   (c6_pending_template_precedence
      { current_namespace := [], current_template_params := some ["T"], class_scope_stack := [] }
      "class" ["Box", "\x7b", "\x7d", ";"] { name := "Box", template_params := [], bases := [] }
      (Or.inl rfl) (by decide)).1 "T" [] rfl,
   (c6_pending_template_precedence
      { current_namespace := [], current_template_params := none, class_scope_stack := [] }
      "class" ["Foo", "<", "A", ">", ";"] { name := "Foo", template_params := ["A"], bases := [] }
      (Or.inl rfl) (by decide)).2 rfl⟩

/-- C7: on any grammar mismatch (a template-header, class/struct or
namespace pattern failing at its lookahead window) the miss counter is
incremented, a warning is logged, no entity is produced, and the namespace
and class-name stacks are left exactly as before; the pending template
parameters are cleared on a template-header mismatch and untouched
otherwise.  Scanning then resumes at the next token (the pass folds the
step over every position). -/
theorem c7_grammar_mismatch (s : ScopeState) (t : String) (f : List String)
    (h : (t = "template" ∧ template_decl_match f = none) ∨
         ((t = "class" ∨ t = "struct") ∧ class_decl_match f = none) ∨
         (t = "namespace" ∧ namespace_decl_match f = none)) :
    (cpp_step s t f).misses = 1 ∧ (cpp_step s t f).warnings = 1 ∧
    (cpp_step s t f).hits = 0 ∧ (cpp_step s t f).emitted = none ∧
    (cpp_step s t f).state.current_namespace = s.current_namespace ∧
    (cpp_step s t f).state.class_scope_stack = s.class_scope_stack ∧
    (cpp_step s t f).state.current_template_params =
      (if t = "template" then none else s.current_template_params) := by
  rcases h with ⟨rfl, hm⟩ | ⟨ht, hm⟩ | ⟨rfl, hm⟩
  · simp +decide [cpp_step, hm]
  · rcases ht with rfl | rfl <;> simp +decide [cpp_step, hm]
  · simp +decide [cpp_step, hm]

/-- Witness for C7: the malformed `class ;` (no identifier after the
keyword) fails the class pattern. -/
theorem c7_grammar_mismatch_witness :
    ((("class" : String) = "template" ∧ template_decl_match [";"] = none) ∨
     ((("class" : String) = "class" ∨ ("class" : String) = "struct") ∧
        class_decl_match [";"] = none) ∨
     (("class" : String) = "namespace" ∧ namespace_decl_match [";"] = none)) ∧
    ((cpp_step { current_namespace := ["N"], current_template_params := some ["T"], class_scope_stack := ["C"] } "class" [";"]).misses = 1 ∧
     (cpp_step { current_namespace := ["N"], current_template_params := some ["T"], class_scope_stack := ["C"] } "class" [";"]).warnings = 1 ∧
     (cpp_step { current_namespace := ["N"], current_template_params := some ["T"], class_scope_stack := ["C"] } "class" [";"]).hits = 0 ∧
     (cpp_step { current_namespace := ["N"], current_template_params := some ["T"], class_scope_stack := ["C"] } "class" [";"]).emitted = none ∧
     (cpp_step { current_namespace := ["N"], current_template_params := some ["T"], class_scope_stack := ["C"] } "class" [";"]).state.current_namespace = ["N"] ∧
     (cpp_step { current_namespace := ["N"], current_template_params := some ["T"], class_scope_stack := ["C"] } "class" [";"]).state.class_scope_stack = ["C"] ∧
     (cpp_step { current_namespace := ["N"], current_template_params := some ["T"], class_scope_stack := ["C"] } "class" [";"]).state.current_template_params =
       (if ("class" : String) = "template" then none else some ["T"])) :=
  ⟨Or.inr (Or.inl ⟨Or.inl rfl, by decide⟩),
   c7_grammar_mismatch
     { current_namespace := ["N"], current_template_params := some ["T"], class_scope_stack := ["C"] } "class" [";"]
     (Or.inr (Or.inl ⟨Or.inl rfl, by decide⟩))⟩

/-- C8: every matched include path is resolved (via the abstracted
`resolve_relative_dependency_path`), adopted when the resolved path exists
under the parent of the source root and kept raw otherwise; the possibly
resolved string is dropped when the ignore-list predicate matches and
appended to the dependency list in encounter order otherwise, with
duplicates preserved — the recorded list is exactly the ignore-filtered
image of the matched paths, in order. -/
theorem c8_dependency_resolution (resolve : String → String) (path_exists : String → Bool)
    (parent_dir : String) (in_ignore_list : String → Bool) (deps : List String) :
    (add_import_dependencies resolve path_exists parent_dir in_ignore_list deps =
      (deps.map (try_resolve_dependency resolve path_exists parent_dir)).filter
        (fun d => !(in_ignore_list d))) ∧
    (∀ d, (path_exists (parent_dir ++ "/" ++ resolve d) = true →
             try_resolve_dependency resolve path_exists parent_dir d = resolve d) ∧
          (path_exists (parent_dir ++ "/" ++ resolve d) = false →
             try_resolve_dependency resolve path_exists parent_dir d = d)) := by
  constructor
  · induction deps with
    | nil => rfl
    | cons d rest ih =>
      by_cases h : in_ignore_list (try_resolve_dependency resolve path_exists parent_dir d) = true <;>
        simp [add_import_dependencies, h, ih]
  · intro d
    constructor <;> intro h <;> simp [try_resolve_dependency, h]

/-- Witness for C8: a resolver prefixing `x/`, an existence check true
exactly at `root/x/a.h`, and an ignore predicate matching `skip.h`; the
duplicate resolvable include is kept twice, the ignored one dropped, and
the existence hypotheses are discharged concretely. -/
theorem c8_dependency_resolution_witness :
    ((fun s => s == "root/x/a.h") ("root" ++ "/" ++ (fun s => "x/" ++ s) "a.h") = true ∧
     try_resolve_dependency (fun s => "x/" ++ s) (fun s => s == "root/x/a.h") "root" "a.h" =
       (fun s => "x/" ++ s) "a.h") ∧
    ((fun s => s == "root/x/a.h") ("root" ++ "/" ++ (fun s => "x/" ++ s) "skip.h") = false ∧
     try_resolve_dependency (fun s => "x/" ++ s) (fun s => s == "root/x/a.h") "root" "skip.h" =
       "skip.h") ∧
    add_import_dependencies (fun s => "x/" ++ s) (fun s => s == "root/x/a.h") "root"
        (fun s => s == "skip.h") ["a.h", "a.h", "skip.h"] =
      ["x/a.h", "x/a.h"] :=
  ⟨⟨by decide,
    ((c8_dependency_resolution (fun s => "x/" ++ s) (fun s => s == "root/x/a.h") "root"
        (fun s => s == "skip.h") ["a.h", "a.h", "skip.h"]).2 "a.h").1 (by decide)⟩,
   ⟨by decide,
    ((c8_dependency_resolution (fun s => "x/" ++ s) (fun s => s == "root/x/a.h") "root"
        (fun s => s == "skip.h") ["a.h", "a.h", "skip.h"]).2 "skip.h").2 (by decide)⟩,
   by decide⟩

/-- C10: every successful class/struct match emits exactly one entity
record, which the pass appends to the entity list — including a forward
declaration such as `class Fwd;`, which yields one entity record while
leaving the class-name stack unpushed. -/
theorem c10_entity_per_match (s : ScopeState) (t : String) (f : List String)
    (m : ClassMatch) (ht : t = "class" ∨ t = "struct")
    (hm : class_decl_match f = some m) :
    ((cpp_step s t f).emitted.isSome = true ∧
     (run_entity_pass s (t :: f)).entities.length =
       1 + (run_entity_pass (cpp_step s t f).state f).entities.length) ∧
    ((generate_entity_results (tokenize "class Fwd;")).entities.length = 1 ∧
     (generate_entity_results (tokenize "class Fwd;")).state.class_scope_stack = []) := by
  constructor
  · rcases ht with rfl | rfl <;> simp +decide [cpp_step, hm, run_entity_pass] <;> omega
  · exact ⟨by decide, by decide⟩

/-- Witness for C10: `class Fwd ;` from the empty scope state. -/
theorem c10_entity_per_match_witness :
    (("class" : String) = "class" ∨ ("class" : String) = "struct") ∧
    class_decl_match ["Fwd", ";"] = some { name := "Fwd", template_params := [], bases := [] } ∧
    (((cpp_step { current_namespace := [], current_template_params := none, class_scope_stack := [] } "class" ["Fwd", ";"]).emitted.isSome = true ∧
      (run_entity_pass { current_namespace := [], current_template_params := none, class_scope_stack := [] } ("class" :: ["Fwd", ";"])).entities.length =
        1 + (run_entity_pass (cpp_step { current_namespace := [], current_template_params := none, class_scope_stack := [] } "class" ["Fwd", ";"]).state ["Fwd", ";"]).entities.length) ∧
     ((generate_entity_results (tokenize "class Fwd;")).entities.length = 1 ∧
      (generate_entity_results (tokenize "class Fwd;")).state.class_scope_stack = [])) :=
  ⟨Or.inl rfl, by decide,
   c10_entity_per_match
     { current_namespace := [], current_template_params := none, class_scope_stack := [] }
     "class" ["Fwd", ";"] { name := "Fwd", template_params := [], bases := [] }
     (Or.inl rfl) (by decide)⟩

end CppParser
